import Mathlib

/-!
Shallow embedding of `src/data-collection-code.py` (RCCar data collection).

The Python program is a single `DataCollector` class driving a fixed-rate
control loop: per tick it handles controller hot-plug, arbitrates keyboard
versus controller input, mixes axes into actuator pulse widths, writes PWM
duty values, and (while a recording session is active) captures decimated
camera frames paired with the steering pulse in effect.

Modelling choices:
- object attributes become the record `CollectorState`;
- per-tick environment reads (pressed keys, `pg.joystick.get_count()`,
  controller axes/buttons/hat, camera capture result, wall-clock time)
  become the record `TickInput`;
- side effects on hardware and the filesystem (indicator GPIO writes,
  label-file serialization, image writes) become an `Effect` list;
- real-valued quantities are `ℚ` (the Python floats are decimal literals
  combined by field operations only, so `ℚ` mirrors them exactly);
- a Python exception escaping `capture_frame` is the `.raised` outcome,
  carrying the mutations performed before the raise.
-/

namespace RCCar

/-- One entry of `self.steering_data`: the dict appended in `capture_frame`. -/
structure FrameRecord where
  frame : ℕ
  steering_value : ℚ
  timestamp : ℕ
deriving Repr, DecidableEq

/-- Externally visible side effects of the collector's methods. -/
inductive Effect where
  | indicatorOn : Effect
  | indicatorOff : Effect
  | writeLabelFile : List FrameRecord → Effect
  | writeImage : ℕ → Effect
deriving Repr, DecidableEq

/-- The mutable attributes of `DataCollector` that the control flow reads. -/
structure CollectorState where
  frame_interval : ℕ
  frame_count : ℕ
  collecting : Bool
  steering_data : List FrameRecord
  cam_connected : Bool
  steering_ms_centered : ℚ
  steering_ms_range : ℚ
  steering_ms_out : ℚ
  steering_axis : ℚ
  throttle_ms_centered : ℚ
  throttle_ms_range : ℚ
  throttle_ms_out : ℚ
  throttle_axis : ℚ
  throttle_key : ℚ
  deadzone : ℚ
  joystick_tracked : Bool
  button_states : ℕ → Bool
  r_key_pressed : Bool
  input_value : ℕ

/-- The pygame key bits the program reads, plus `other` standing for any
further key that makes `any(keys)` true. -/
structure KeyState where
  left : Bool
  right : Bool
  down : Bool
  up : Bool
  space : Bool
  r : Bool
  other : Bool
deriving Repr, DecidableEq

/-- Controller readings for one tick: axes 0 and 4, button 4, hat 0. -/
structure ControllerInput where
  axis0 : ℚ
  axis4 : ℚ
  button4 : Bool
  hat0 : ℤ × ℤ
deriving Repr, DecidableEq

/-- Environment inputs consumed during one iteration of the `run` loop.
`cpos` is `pg.joystick.get_count() > 0`; `capture` is `none` when
`camera.capture_array()` raises. -/
structure TickInput where
  keys : KeyState
  cpos : Bool
  ctrl : ControllerInput
  capture : Option Unit
  now : ℕ

/-- `apply_deadzone` from the source. -/
def apply_deadzone (value deadzone : ℚ) : ℚ :=
  if |value| < deadzone then 0 else value

/-- The `DataCollector.__init__` attribute values (calibration constants are
the literals from the source); `cam` is whether `init_camera` succeeded and
`joy` whether a controller was present at startup. `r_key_pressed` is set
to `False` at the top of `run`. -/
def init_state (frame_interval : ℕ) (cam joy : Bool) : CollectorState :=
  { frame_interval := frame_interval
    frame_count := 0
    collecting := false
    steering_data := []
    cam_connected := cam
    steering_ms_centered := 1.075
    steering_ms_range := 0.1702
    steering_ms_out := 1.075
    steering_axis := 0
    throttle_ms_centered := 1.35
    throttle_ms_range := 0.06
    throttle_ms_out := 1.35
    throttle_axis := 0
    throttle_key := 0
    deadzone := 0.1
    joystick_tracked := joy
    button_states := fun _ => false
    r_key_pressed := false
    input_value := 0 }

/-- `start_collecting`: no-op if already collecting or camera absent;
otherwise reset the session log and counter, raise `collecting`, and turn
the indicator on. -/
def start_collecting (s : CollectorState) : CollectorState × List Effect :=
  if s.collecting = true then (s, [])
  else if s.cam_connected = false then (s, [])
  else ({ s with collecting := true, steering_data := [], frame_count := 0 },
        [Effect.indicatorOn])

/-- `stop_collecting`: no-op if not collecting; otherwise lower
`collecting`, turn the indicator off, and serialize the label log iff it
is non-empty. -/
def stop_collecting (s : CollectorState) : CollectorState × List Effect :=
  if s.collecting = false then (s, [])
  else ({ s with collecting := false },
        Effect.indicatorOff ::
          (if s.steering_data = [] then [] else [Effect.writeLabelFile s.steering_data]))

/-- Result of `capture_frame`: either a normal return with effects, or a
Python exception escaping the method (`.raised`), carrying the state as
mutated before the raise. -/
inductive CaptureOutcome where
  | ok : CollectorState → List Effect → CaptureOutcome
  | raised : CollectorState → CaptureOutcome

/-- Whether a `CaptureOutcome` is an escaping exception. -/
def CaptureOutcome.isRaised : CaptureOutcome → Bool
  | .ok _ _ => false
  | .raised _ => true

/-- The collector state after `capture_frame` returns or raises. -/
def CaptureOutcome.state : CaptureOutcome → CollectorState
  | .ok t _ => t
  | .raised t => t

/-- The effects `capture_frame` performed before returning or raising. -/
def CaptureOutcome.effects : CaptureOutcome → List Effect
  | .ok _ e => e
  | .raised _ => []

/-- `capture_frame`: return early unless collecting with a camera;
increment `frame_count`; on decimation hits capture an image (the
uncaught `capture_array` exception propagates), name it by the label-log
length, and append the record carrying the current `steering_ms_out`. -/
def capture_frame (s : CollectorState) (cap : Option Unit) (now : ℕ) : CaptureOutcome :=
  if s.collecting = false ∨ s.cam_connected = false then .ok s []
  else
    let s1 := { s with frame_count := s.frame_count + 1 }
    if s1.frame_count % s1.frame_interval = 0 then
      match cap with
      | none => .raised s1
      | some _ =>
        let frame_num := s1.steering_data.length
        .ok { s1 with steering_data :=
                s1.steering_data ++ [⟨frame_num, s1.steering_ms_out, now⟩] }
           [Effect.writeImage frame_num]
    else .ok s1 []

/-- The rising-edge detector pattern shared by `handle_one_shot_button`
and the keyboard R-key handling: given the stored level and the current
level, return (fired, new stored level). -/
def one_shot_step (stored current : Bool) : Bool × Bool :=
  if current = true ∧ stored = false then (true, true)
  else if current = false ∧ stored = true then (false, false)
  else (false, stored)

/-- Run the edge detector over a sequence of observed levels, returning
the per-tick fire flags and the final stored level. -/
def one_shot_run (stored : Bool) : List Bool → List Bool × Bool
  | [] => ([], stored)
  | c :: cs =>
    let p := one_shot_step stored c
    let q := one_shot_run p.2 cs
    (p.1 :: q.1, q.2)

/-- `handle_one_shot_button`: returns whether the one-shot fired and the
updated state; absent dictionary entries read as `false` (the source
inserts `False` for untracked indices before testing). -/
def handle_one_shot_button (s : CollectorState) (i : ℕ) (button_current : Bool) :
    Bool × CollectorState :=
  if s.joystick_tracked = false then (false, s)
  else if button_current = true ∧ s.button_states i = false then
    (true, { s with button_states := Function.update s.button_states i true })
  else if button_current = false ∧ s.button_states i = true then
    (false, { s with button_states := Function.update s.button_states i false })
  else (false, s)

/-- `controller_reconnection_handler`: drop the tracked joystick when the
count is zero, acquire one when newly present. -/
def controller_reconnection_handler (cpos : Bool) (s : CollectorState) : CollectorState :=
  if cpos = false then
    if s.joystick_tracked = true then { s with joystick_tracked := false } else s
  else if s.joystick_tracked = false then { s with joystick_tracked := true }
  else s

/-- `get_keyboard_inputs`: arrow keys form the axes, SPACE sets the boost
scalar (with no reset path), and the R key toggles recording through the
edge detector on `r_key_pressed`. -/
def get_keyboard_inputs (k : KeyState) (s : CollectorState) : CollectorState × List Effect :=
  let a : ℚ := (if k.left then -1 else 0) + (if k.right then 1 else 0)
  let b : ℚ := (if k.down then -1 else 0) + (if k.up then 1 else 0)
  let s1 := if k.space then { s with throttle_key := 1 } else s
  let p :=
    if k.r = true ∧ s1.r_key_pressed = false then
      let s2 := { s1 with r_key_pressed := true }
      if s2.collecting = true then stop_collecting s2 else start_collecting s2
    else if k.r = false then ({ s1 with r_key_pressed := false }, [])
    else (s1, [])
  ({ p.1 with steering_axis := a, throttle_axis := b }, p.2)

/-- `get_controller_inputs`: deadzone-filtered axis 0 for steering, axis 4
remapped to [0, 1] for throttle, button 4 through the one-shot detector to
toggle recording, and the hat updating the sticky boost scalar. -/
def get_controller_inputs (c : ControllerInput) (s : CollectorState) :
    CollectorState × List Effect :=
  if s.joystick_tracked = false then (s, [])
  else
    let s1 := { s with steering_axis := apply_deadzone c.axis0 s.deadzone,
                       throttle_axis := c.axis4 / 2 + 0.5 }
    let p := handle_one_shot_button s1 4 c.button4
    let q :=
      if p.1 = true then
        if p.2.collecting = true then stop_collecting p.2 else start_collecting p.2
      else (p.2, [])
    let s3 :=
      if c.hat0.2 = 1 then { q.1 with throttle_key := 1 }
      else if c.hat0.2 = -1 then { q.1 with throttle_key := -0.625 }
      else if c.hat0.1 = 1 ∨ c.hat0.1 = -1 then { q.1 with throttle_key := 0 }
      else q.1
    (s3, q.2)

/-- `any(keys)` over the key bits the model tracks. -/
def anyKey (k : KeyState) : Bool :=
  k.left || k.right || k.down || k.up || k.space || k.r || k.other

/-- `input_handler`: zero both axes, then prefer the keyboard whenever any
key is pressed; otherwise poll the controller only when one is connected. -/
def input_handler (k : KeyState) (cpos : Bool) (c : ControllerInput)
    (s : CollectorState) : CollectorState × List Effect :=
  let s1 := { s with steering_axis := 0, throttle_axis := 0,
                     input_value := if anyKey k then 0 else 1 }
  if s1.input_value = 0 then get_keyboard_inputs k s1
  else if cpos = true then get_controller_inputs c s1
  else (s1, [])

/-- `steering_handler`: the pure steering mixer. -/
def steering_handler (s : CollectorState) : CollectorState :=
  { s with steering_ms_out := s.steering_ms_centered + s.steering_ms_range * s.steering_axis }

/-- `throttle_handler`: the pure throttle mixer, scaled by the boost. -/
def throttle_handler (s : CollectorState) : CollectorState :=
  { s with throttle_ms_out :=
      s.throttle_ms_centered + s.throttle_ms_range * s.throttle_axis * s.throttle_key }

/-- The PWM frequency set on both pins (`self.freq = 50`). -/
def freq : ℚ := 50

/-- `update_steering_duty`: the duty value written to the steering pin. -/
def update_steering_duty (s : CollectorState) : ℚ :=
  s.steering_ms_out / (1 / freq * 1000) * 1000

/-- `update_throttle_duty`: the duty value written to the throttle pin —
forced to 0 whenever `controller_connection_check()` is false. -/
def update_throttle_duty (cpos : Bool) (s : CollectorState) : ℚ :=
  if cpos = true then s.throttle_ms_out / (1 / freq * 1000) * 1000 else 0

/-- What one iteration of the `run` loop produced: the post-tick state, the
duty values written to the two PWM pins, the side effects, and whether an
exception escaped `capture_frame` (aborting the loop). -/
structure TickResult where
  state : CollectorState
  steering_written : ℚ
  throttle_written : ℚ
  effects : List Effect
  raised : Bool

/-- One iteration of the `run` loop body, in source order: reconnection
handling, input arbitration, the two mixers, the two PWM writes, then
frame capture. -/
def tick (inp : TickInput) (s : CollectorState) : TickResult :=
  let s1 := controller_reconnection_handler inp.cpos s
  let p := input_handler inp.keys inp.cpos inp.ctrl s1
  let s2 := throttle_handler (steering_handler p.1)
  let out := capture_frame s2 inp.capture inp.now
  ⟨out.state, update_steering_duty s2, update_throttle_duty inp.cpos s2,
   p.2 ++ out.effects, out.isRaised⟩

/-- `cleanup` (the recording-related part): stop collecting if active.
The PWM zeroing and device release touch only external handles. -/
def cleanup (s : CollectorState) : CollectorState × List Effect :=
  if s.collecting = true then stop_collecting s else (s, [])

/-- One sampling tick with a successful camera read, paired with whether
an image was written this tick. -/
def capture_step (s : CollectorState) (now : ℕ) : CollectorState × Bool :=
  match capture_frame s (some ()) now with
  | .ok s1 eff => (s1, !eff.isEmpty)
  | .raised s1 => (s1, false)

/-- Iterate `capture_step` over the given tick timestamps, collecting the
per-tick captured flags in order. -/
def capture_run (s : CollectorState) : List ℕ → CollectorState × List Bool
  | [] => (s, [])
  | t :: ts =>
    let q := capture_step s t
    let p := capture_run q.1 ts
    (p.1, q.2 :: p.2)

/-- The label-log density invariant: the k-th record's `frame` field is k. -/
def frames_ok (l : List FrameRecord) : Prop :=
  ∀ k (h : k < l.length), (l.get ⟨k, h⟩).frame = k

/-- States reachable by the program: an initial `__init__` state followed
by any number of loop iterations and teardowns. -/
inductive Reachable : CollectorState → Prop where
  | init (fi : ℕ) (cam joy : Bool) : Reachable (init_state fi cam joy)
  | step (s : CollectorState) (inp : TickInput) :
      Reachable s → Reachable (tick inp s).state
  | teardown (s : CollectorState) : Reachable s → Reachable (cleanup s).1

/-! ### Field-preservation lemmas -/

@[simp] theorem start_collecting_cam (s : CollectorState) :
    (start_collecting s).1.cam_connected = s.cam_connected := by
  unfold start_collecting; split
  · rfl
  · split <;> rfl

@[simp] theorem start_collecting_button_states (s : CollectorState) :
    (start_collecting s).1.button_states = s.button_states := by
  unfold start_collecting; split
  · rfl
  · split <;> rfl

@[simp] theorem start_collecting_r_key (s : CollectorState) :
    (start_collecting s).1.r_key_pressed = s.r_key_pressed := by
  unfold start_collecting; split
  · rfl
  · split <;> rfl

@[simp] theorem start_collecting_throttle_key (s : CollectorState) :
    (start_collecting s).1.throttle_key = s.throttle_key := by
  unfold start_collecting; split
  · rfl
  · split <;> rfl

@[simp] theorem stop_collecting_cam (s : CollectorState) :
    (stop_collecting s).1.cam_connected = s.cam_connected := by
  unfold stop_collecting; split <;> rfl

@[simp] theorem stop_collecting_button_states (s : CollectorState) :
    (stop_collecting s).1.button_states = s.button_states := by
  unfold stop_collecting; split <;> rfl

@[simp] theorem stop_collecting_r_key (s : CollectorState) :
    (stop_collecting s).1.r_key_pressed = s.r_key_pressed := by
  unfold stop_collecting; split <;> rfl

@[simp] theorem stop_collecting_throttle_key (s : CollectorState) :
    (stop_collecting s).1.throttle_key = s.throttle_key := by
  unfold stop_collecting; split <;> rfl

@[simp] theorem stop_collecting_steering_data (s : CollectorState) :
    (stop_collecting s).1.steering_data = s.steering_data := by
  unfold stop_collecting; split <;> rfl

theorem capture_frame_state_preserves (s : CollectorState) (cap : Option Unit) (now : ℕ) :
    (capture_frame s cap now).state.collecting = s.collecting
    ∧ (capture_frame s cap now).state.cam_connected = s.cam_connected
    ∧ (capture_frame s cap now).state.steering_ms_out = s.steering_ms_out
    ∧ (capture_frame s cap now).state.throttle_ms_out = s.throttle_ms_out
    ∧ (capture_frame s cap now).state.button_states = s.button_states
    ∧ (capture_frame s cap now).state.throttle_key = s.throttle_key
    ∧ (capture_frame s cap now).state.r_key_pressed = s.r_key_pressed := by
  by_cases h1 : s.collecting = false ∨ s.cam_connected = false
  · simp [capture_frame, h1, CaptureOutcome.state]
  · cases cap <;> by_cases h2 : (s.frame_count + 1) % s.frame_interval = 0 <;>
      simp [capture_frame, h1, h2, CaptureOutcome.state]

@[simp] theorem capture_frame_collecting (s : CollectorState) (cap : Option Unit) (now : ℕ) :
    (capture_frame s cap now).state.collecting = s.collecting :=
  (capture_frame_state_preserves s cap now).1

@[simp] theorem capture_frame_cam (s : CollectorState) (cap : Option Unit) (now : ℕ) :
    (capture_frame s cap now).state.cam_connected = s.cam_connected :=
  (capture_frame_state_preserves s cap now).2.1

@[simp] theorem capture_frame_steering_out (s : CollectorState) (cap : Option Unit) (now : ℕ) :
    (capture_frame s cap now).state.steering_ms_out = s.steering_ms_out :=
  (capture_frame_state_preserves s cap now).2.2.1

@[simp] theorem capture_frame_throttle_out (s : CollectorState) (cap : Option Unit) (now : ℕ) :
    (capture_frame s cap now).state.throttle_ms_out = s.throttle_ms_out :=
  (capture_frame_state_preserves s cap now).2.2.2.1

@[simp] theorem capture_frame_button_states (s : CollectorState) (cap : Option Unit) (now : ℕ) :
    (capture_frame s cap now).state.button_states = s.button_states :=
  (capture_frame_state_preserves s cap now).2.2.2.2.1

@[simp] theorem reconnection_button_states (cpos : Bool) (s : CollectorState) :
    (controller_reconnection_handler cpos s).button_states = s.button_states := by
  unfold controller_reconnection_handler
  split
  · split <;> rfl
  · split <;> rfl

@[simp] theorem reconnection_cam (cpos : Bool) (s : CollectorState) :
    (controller_reconnection_handler cpos s).cam_connected = s.cam_connected := by
  unfold controller_reconnection_handler
  split
  · split <;> rfl
  · split <;> rfl

@[simp] theorem reconnection_collecting (cpos : Bool) (s : CollectorState) :
    (controller_reconnection_handler cpos s).collecting = s.collecting := by
  unfold controller_reconnection_handler
  split
  · split <;> rfl
  · split <;> rfl

@[simp] theorem reconnection_steering_data (cpos : Bool) (s : CollectorState) :
    (controller_reconnection_handler cpos s).steering_data = s.steering_data := by
  unfold controller_reconnection_handler
  split
  · split <;> rfl
  · split <;> rfl

@[simp] theorem get_keyboard_inputs_cam (k : KeyState) (s : CollectorState) :
    (get_keyboard_inputs k s).1.cam_connected = s.cam_connected := by
  rcases k with ⟨l, r, d, u, sp, rk, o⟩
  cases sp <;> cases rk <;>
    by_cases hp : s.r_key_pressed = false <;>
    by_cases hc : s.collecting = true <;>
      simp [get_keyboard_inputs, hp, hc]

@[simp] theorem get_keyboard_inputs_button_states (k : KeyState) (s : CollectorState) :
    (get_keyboard_inputs k s).1.button_states = s.button_states := by
  rcases k with ⟨l, r, d, u, sp, rk, o⟩
  cases sp <;> cases rk <;>
    by_cases hp : s.r_key_pressed = false <;>
    by_cases hc : s.collecting = true <;>
      simp [get_keyboard_inputs, hp, hc]

@[simp] theorem stop_collecting_collecting (s : CollectorState) :
    (stop_collecting s).1.collecting = false := by
  unfold stop_collecting; split
  · next h => exact h
  · rfl

theorem handle_one_shot_button_state (s : CollectorState) (i : ℕ) (b : Bool) :
    (handle_one_shot_button s i b).2.collecting = s.collecting
    ∧ (handle_one_shot_button s i b).2.cam_connected = s.cam_connected
    ∧ (handle_one_shot_button s i b).2.steering_data = s.steering_data
    ∧ (handle_one_shot_button s i b).2.throttle_key = s.throttle_key := by
  unfold handle_one_shot_button
  split
  · exact ⟨rfl, rfl, rfl, rfl⟩
  · split
    · exact ⟨rfl, rfl, rfl, rfl⟩
    · split <;> exact ⟨rfl, rfl, rfl, rfl⟩

@[simp] theorem handle_one_shot_button_collecting (s : CollectorState) (i : ℕ) (b : Bool) :
    (handle_one_shot_button s i b).2.collecting = s.collecting :=
  (handle_one_shot_button_state s i b).1

@[simp] theorem handle_one_shot_button_cam (s : CollectorState) (i : ℕ) (b : Bool) :
    (handle_one_shot_button s i b).2.cam_connected = s.cam_connected :=
  (handle_one_shot_button_state s i b).2.1

@[simp] theorem handle_one_shot_button_steering_data (s : CollectorState) (i : ℕ) (b : Bool) :
    (handle_one_shot_button s i b).2.steering_data = s.steering_data :=
  (handle_one_shot_button_state s i b).2.2.1

theorem toggle_cam (s : CollectorState) :
    (if s.collecting = true then stop_collecting s else start_collecting s).1.cam_connected
      = s.cam_connected := by
  split <;> simp

@[simp] theorem get_controller_inputs_cam (c : ControllerInput) (s : CollectorState) :
    (get_controller_inputs c s).1.cam_connected = s.cam_connected := by
  unfold get_controller_inputs
  split
  · rfl
  · dsimp only
    split_ifs <;> simp

/-! ### The `collecting → camera connected` invariant -/

/-- Recording requires the camera: the safety invariant of claim C9. -/
def CamInv (s : CollectorState) : Prop :=
  s.collecting = true → s.cam_connected = true

theorem start_collecting_caminv (s : CollectorState) (h : CamInv s) :
    CamInv (start_collecting s).1 := by
  unfold start_collecting
  split
  · exact h
  · split
    · exact h
    · next h1 h2 =>
      intro _
      simpa using eq_true_of_ne_false h2

theorem stop_collecting_caminv (s : CollectorState) :
    CamInv (stop_collecting s).1 := by
  intro h
  rw [stop_collecting_collecting] at h
  exact absurd h (by simp)

theorem get_keyboard_inputs_caminv (k : KeyState) (s : CollectorState) (h : CamInv s) :
    CamInv (get_keyboard_inputs k s).1 := by
  unfold get_keyboard_inputs
  dsimp only
  repeat
    first
      | exact stop_collecting_caminv _
      | exact start_collecting_caminv _ h
      | exact h
      | split

theorem get_controller_inputs_caminv (c : ControllerInput) (s : CollectorState)
    (h : CamInv s) : CamInv (get_controller_inputs c s).1 := by
  have hb : ∀ t : CollectorState, CamInv t → ∀ i b, CamInv (handle_one_shot_button t i b).2 := by
    intro t ht i b
    intro hcol
    rw [handle_one_shot_button_cam]
    exact ht (by rw [← handle_one_shot_button_collecting t i b]; exact hcol)
  unfold get_controller_inputs
  dsimp only
  split
  · exact h
  · generalize hp : handle_one_shot_button
      { s with steering_axis := apply_deadzone c.axis0 s.deadzone,
               throttle_axis := c.axis4 / 2 + 0.5 } 4 c.button4 = p
    have hp2 : CamInv p.2 := by
      rw [← hp]
      exact hb { s with steering_axis := apply_deadzone c.axis0 s.deadzone,
                        throttle_axis := c.axis4 / 2 + 0.5 } h 4 c.button4
    repeat
      first
        | exact stop_collecting_caminv _
        | exact start_collecting_caminv _ hp2
        | exact hp2
        | split

theorem input_handler_caminv (k : KeyState) (cpos : Bool) (c : ControllerInput)
    (s : CollectorState) (h : CamInv s) : CamInv (input_handler k cpos c s).1 := by
  by_cases hk : anyKey k = true
  · simp only [input_handler, hk, if_true]
    exact get_keyboard_inputs_caminv _ _ h
  · simp only [input_handler, hk, if_false, Bool.false_eq_true, reduceIte,
      one_ne_zero]
    split
    · exact get_controller_inputs_caminv _ _ h
    · exact h

theorem capture_frame_caminv (s : CollectorState) (cap : Option Unit) (now : ℕ)
    (h : CamInv s) : CamInv (capture_frame s cap now).state := by
  intro hcol
  rw [capture_frame_cam]
  exact h (by rw [← capture_frame_collecting s cap now]; exact hcol)

theorem tick_caminv (inp : TickInput) (s : CollectorState) (h : CamInv s) :
    CamInv (tick inp s).state := by
  unfold tick
  dsimp only
  apply capture_frame_caminv
  have h1 : CamInv (controller_reconnection_handler inp.cpos s) := by
    intro hcol
    rw [reconnection_cam]
    exact h (by rw [← reconnection_collecting inp.cpos s]; exact hcol)
  exact input_handler_caminv _ _ _ _ h1

theorem cleanup_caminv (s : CollectorState) (h : CamInv s) : CamInv (cleanup s).1 := by
  unfold cleanup
  split
  · exact stop_collecting_caminv _
  · exact h

theorem reachable_caminv (s : CollectorState) (h : Reachable s) : CamInv s := by
  induction h with
  | init fi cam joy => intro hcol; simp [init_state] at hcol
  | step t inp _ ih => exact tick_caminv inp t ih
  | teardown t _ ih => exact cleanup_caminv t ih

@[simp] theorem input_handler_cam (k : KeyState) (cpos : Bool) (c : ControllerInput)
    (s : CollectorState) :
    (input_handler k cpos c s).1.cam_connected = s.cam_connected := by
  by_cases hk : anyKey k = true
  · simp [input_handler, hk]
  · simp only [input_handler, hk, if_false, Bool.false_eq_true, reduceIte,
      one_ne_zero]
    split <;> simp

theorem tick_cam_const (inp : TickInput) (s : CollectorState) :
    (tick inp s).state.cam_connected = s.cam_connected := by
  unfold tick
  dsimp only
  rw [capture_frame_cam]
  show (input_handler inp.keys inp.cpos inp.ctrl
      (controller_reconnection_handler inp.cpos s)).1.cam_connected = s.cam_connected
  rw [input_handler_cam, reconnection_cam]

/-! ### Label-log density machinery -/

theorem start_collecting_sd (s : CollectorState) :
    (start_collecting s).1.steering_data = s.steering_data
    ∨ (start_collecting s).1.steering_data = [] := by
  unfold start_collecting
  split
  · exact Or.inl rfl
  · split
    · exact Or.inl rfl
    · exact Or.inr rfl

theorem get_keyboard_inputs_sd (k : KeyState) (s : CollectorState) :
    (get_keyboard_inputs k s).1.steering_data = s.steering_data
    ∨ (get_keyboard_inputs k s).1.steering_data = [] := by
  unfold get_keyboard_inputs
  dsimp only
  repeat
    first
      | exact Or.inl (stop_collecting_steering_data _)
      | exact start_collecting_sd _
      | exact Or.inl rfl
      | split

theorem get_controller_inputs_sd (c : ControllerInput) (s : CollectorState) :
    (get_controller_inputs c s).1.steering_data = s.steering_data
    ∨ (get_controller_inputs c s).1.steering_data = [] := by
  unfold get_controller_inputs
  dsimp only
  split
  · exact Or.inl rfl
  · generalize hp : handle_one_shot_button
      { s with steering_axis := apply_deadzone c.axis0 s.deadzone,
               throttle_axis := c.axis4 / 2 + 0.5 } 4 c.button4 = p
    have hsd : p.2.steering_data = s.steering_data := by
      rw [← hp]
      exact handle_one_shot_button_steering_data _ _ _
    repeat
      first
        | exact Or.inl ((stop_collecting_steering_data _).trans hsd)
        | exact (start_collecting_sd p.2).imp (fun hx => hx.trans hsd) id
        | exact Or.inl hsd
        | split

theorem input_handler_sd (k : KeyState) (cpos : Bool) (c : ControllerInput)
    (s : CollectorState) :
    (input_handler k cpos c s).1.steering_data = s.steering_data
    ∨ (input_handler k cpos c s).1.steering_data = [] := by
  by_cases hk : anyKey k = true
  · simp only [input_handler, hk, if_true]
    exact get_keyboard_inputs_sd _ _
  · simp only [input_handler, hk, if_false, Bool.false_eq_true, reduceIte,
      one_ne_zero]
    split
    · exact get_controller_inputs_sd _ _
    · exact Or.inl rfl

theorem capture_frame_sd (s : CollectorState) (cap : Option Unit) (now : ℕ) :
    (capture_frame s cap now).state.steering_data = s.steering_data
    ∨ (capture_frame s cap now).state.steering_data
        = s.steering_data ++ [⟨s.steering_data.length, s.steering_ms_out, now⟩] := by
  by_cases h1 : s.collecting = false ∨ s.cam_connected = false
  · left; simp [capture_frame, h1, CaptureOutcome.state]
  · cases cap with
    | none =>
      by_cases h2 : (s.frame_count + 1) % s.frame_interval = 0 <;>
        (left; simp [capture_frame, h1, h2, CaptureOutcome.state])
    | some u =>
      by_cases h2 : (s.frame_count + 1) % s.frame_interval = 0
      · right; simp [capture_frame, h1, h2, CaptureOutcome.state]
      · left; simp [capture_frame, h1, h2, CaptureOutcome.state]

theorem capture_step_hit (s : CollectorState) (now : ℕ)
    (hc : s.collecting = true) (hcam : s.cam_connected = true)
    (hm : (s.frame_count + 1) % s.frame_interval = 0) :
    capture_step s now =
      ({ s with frame_count := s.frame_count + 1,
                steering_data := s.steering_data
                  ++ [⟨s.steering_data.length, s.steering_ms_out, now⟩] }, true) := by
  simp [capture_step, capture_frame, hc, hcam, hm]

theorem capture_step_miss (s : CollectorState) (now : ℕ)
    (hc : s.collecting = true) (hcam : s.cam_connected = true)
    (hm : ¬(s.frame_count + 1) % s.frame_interval = 0) :
    capture_step s now = ({ s with frame_count := s.frame_count + 1 }, false) := by
  simp [capture_step, capture_frame, hc, hcam, hm]

theorem frames_ok_nil : frames_ok [] := by
  intro k h
  simp at h

theorem frames_ok_append (l : List FrameRecord) (v : ℚ) (t : ℕ) (h : frames_ok l) :
    frames_ok (l ++ [⟨l.length, v, t⟩]) := by
  intro k hk
  rcases Nat.lt_or_ge k l.length with h1 | h1
  · rw [List.get_eq_getElem, List.getElem_append_left h1]
    exact h k h1
  · have hkl : k = l.length := by
      have := hk
      simp only [List.length_append, List.length_singleton] at this
      omega
    subst hkl
    simp [List.get_eq_getElem, List.getElem_concat_length]

theorem tick_frames (inp : TickInput) (s : CollectorState)
    (h : frames_ok s.steering_data) :
    frames_ok (tick inp s).state.steering_data := by
  unfold tick
  dsimp only
  have hrec : (controller_reconnection_handler inp.cpos s).steering_data = s.steering_data :=
    reconnection_steering_data _ _
  set p := input_handler inp.keys inp.cpos inp.ctrl
    (controller_reconnection_handler inp.cpos s) with hpdef
  have h1 : frames_ok p.1.steering_data := by
    rcases input_handler_sd inp.keys inp.cpos inp.ctrl
        (controller_reconnection_handler inp.cpos s) with h2 | h2
    · rw [← hpdef] at h2
      rw [h2, hrec]
      exact h
    · rw [← hpdef] at h2
      rw [h2]
      exact frames_ok_nil
  rcases capture_frame_sd (throttle_handler (steering_handler p.1)) inp.capture inp.now
      with h2 | h2
  · rw [h2]
    exact h1
  · rw [h2]
    exact frames_ok_append _ _ _ h1

theorem cleanup_frames (s : CollectorState) (h : frames_ok s.steering_data) :
    frames_ok (cleanup s).1.steering_data := by
  unfold cleanup
  split
  · rw [stop_collecting_steering_data]
    exact h
  · exact h

theorem reachable_frames (s : CollectorState) (h : Reachable s) :
    frames_ok s.steering_data := by
  induction h with
  | init fi cam joy => exact frames_ok_nil
  | step t inp _ ih => exact tick_frames inp t ih
  | teardown t _ ih => exact cleanup_frames t ih

/-! ### Concrete fixtures used by witnesses and counterexamples -/

/-- A controller at rest. -/
def ctrlNeutral : ControllerInput := ⟨0, 0, false, (0, 0)⟩

/-- Only the UP arrow held. -/
def keysUp : KeyState := ⟨false, false, false, true, false, false, false⟩

/-- The post-init state with a session already started (interval 5). -/
def c3state : CollectorState := { init_state 5 true false with collecting := true }

/-- The post-init state with a session started and interval 1. -/
def c7state : CollectorState := { init_state 1 true false with collecting := true }

/-- The post-init state after a SPACE press set the boost on an earlier tick. -/
def c8state : CollectorState := { init_state 5 true false with throttle_key := 1 }

/-! ### Claim theorems -/

/-- Claim C1: for steering_axis in [-1, 1] the steering pulse equals
centered + range * axis and (for a nonnegative range, as configured) lies
in [centered - range, centered + range]; the throttle pulse equals
centered + range * axis * boost. -/
theorem mixer_pulse_spec (s : CollectorState)
    (h1 : -1 ≤ s.steering_axis) (h2 : s.steering_axis ≤ 1)
    (hr : 0 ≤ s.steering_ms_range) :
    (steering_handler s).steering_ms_out
        = s.steering_ms_centered + s.steering_ms_range * s.steering_axis
    ∧ s.steering_ms_centered - s.steering_ms_range ≤ (steering_handler s).steering_ms_out
    ∧ (steering_handler s).steering_ms_out ≤ s.steering_ms_centered + s.steering_ms_range
    ∧ (throttle_handler s).throttle_ms_out
        = s.throttle_ms_centered + s.throttle_ms_range * s.throttle_axis * s.throttle_key := by
  refine ⟨rfl, ?_, ?_, rfl⟩
  · show s.steering_ms_centered - s.steering_ms_range
      ≤ s.steering_ms_centered + s.steering_ms_range * s.steering_axis
    nlinarith
  · show s.steering_ms_centered + s.steering_ms_range * s.steering_axis
      ≤ s.steering_ms_centered + s.steering_ms_range
    nlinarith

/-- A state with full right steering and integral calibration values. -/
def mixState : CollectorState :=
  { init_state 5 true false with steering_axis := 1, steering_ms_range := 2 }

/-- Claim C1 witness at a concrete full-deflection state. -/
theorem mixer_pulse_spec_witness :
    (steering_handler mixState).steering_ms_out
      = mixState.steering_ms_centered
        + mixState.steering_ms_range * mixState.steering_axis :=
  (mixer_pulse_spec mixState
    (show (-1 : ℚ) ≤ 1 by decide) (show (1 : ℚ) ≤ 1 by decide)
    (show (0 : ℚ) ≤ 2 by decide)).1

/-- Claim C2: whenever no controller is connected the throttle duty
written is 0 regardless of the computed pulse; when connected it is the
computed duty; the steering duty is always the computed one. -/
theorem throttle_forced_zero_spec (inp : TickInput) (s : CollectorState) :
    (inp.cpos = false → (tick inp s).throttle_written = 0)
    ∧ (inp.cpos = true → (tick inp s).throttle_written
        = (tick inp s).state.throttle_ms_out / (1 / freq * 1000) * 1000)
    ∧ (tick inp s).steering_written
        = (tick inp s).state.steering_ms_out / (1 / freq * 1000) * 1000 := by
  unfold tick
  dsimp only
  refine ⟨?_, ?_, ?_⟩
  · intro h
    simp [update_throttle_duty, h]
  · intro h
    rw [capture_frame_throttle_out]
    simp [update_throttle_duty, h]
  · rw [capture_frame_steering_out]
    simp [update_steering_duty]

/-- Claim C2 witness: a disconnected tick writes throttle duty 0. -/
theorem throttle_forced_zero_witness :
    (tick ⟨keysUp, false, ctrlNeutral, some (), 0⟩ (init_state 5 true false)).throttle_written
      = 0 :=
  (throttle_forced_zero_spec ⟨keysUp, false, ctrlNeutral, some (), 0⟩
    (init_state 5 true false)).1 rfl

theorem stop_collecting_noop (s : CollectorState) (h : s.collecting = false) :
    stop_collecting s = (s, []) := by
  simp [stop_collecting, h]

/-- Claim C6: from an active state, stop clears `collecting`, turns the
indicator off, writes the label file iff the log is non-empty, and an
immediately repeated stop is a pure no-op with no effects. -/
theorem stop_idempotent_spec (s : CollectorState) (h : s.collecting = true) :
    (stop_collecting s).1.collecting = false
    ∧ (s.steering_data = [] → (stop_collecting s).2 = [Effect.indicatorOff])
    ∧ (s.steering_data ≠ [] →
        (stop_collecting s).2
          = [Effect.indicatorOff, Effect.writeLabelFile s.steering_data])
    ∧ stop_collecting (stop_collecting s).1 = ((stop_collecting s).1, []) := by
  refine ⟨stop_collecting_collecting s, ?_, ?_,
    stop_collecting_noop _ (stop_collecting_collecting s)⟩
  · intro hd
    simp [stop_collecting, h, hd]
  · intro hd
    simp [stop_collecting, h, hd]

/-- Claim C6 witness at a concrete active state. -/
theorem stop_idempotent_witness :
    (stop_collecting c3state).1.collecting = false :=
  (stop_idempotent_spec c3state rfl).1

set_option maxHeartbeats 1600000 in
/-- Claim C3: with interval 5 and an active recording, 12 sampling ticks
from counter 0 capture exactly on ticks 5 and 10 (none on tick 1, since
the counter is incremented before the modulus test), leaving a label log
of length 2 with frame indices 0 and 1. -/
theorem decimation_scenario (s : CollectorState)
    (hi : s.frame_interval = 5) (hf : s.frame_count = 0) (hc : s.collecting = true)
    (hcam : s.cam_connected = true) (hd : s.steering_data = []) :
    (capture_run s [0, 1, 2, 3, 4, 5, 6, 7, 8, 9, 10, 11]).2
      = [false, false, false, false, true, false, false, false, false, true, false, false]
    ∧ (capture_run s [0, 1, 2, 3, 4, 5, 6, 7, 8, 9, 10, 11]).1.steering_data.map
        FrameRecord.frame = [0, 1]
    ∧ (capture_run s [0, 1, 2, 3, 4, 5, 6, 7, 8, 9, 10, 11]).1.steering_data.length = 2 := by
  obtain ⟨fi, fc, col, sd, cam, smc, smr, smo, sax, tmc, tmr, tmo, tax, tk, dz, jt, bs, rk, iv⟩ := s
  simp only at hi hf hc hcam hd
  subst hi hf hc hcam hd
  norm_num [capture_run, capture_step_hit, capture_step_miss]

/-- Claim C3 witness at the started session fixture. -/
theorem decimation_scenario_witness :
    (capture_run c3state [0, 1, 2, 3, 4, 5, 6, 7, 8, 9, 10, 11]).1.steering_data.length = 2 :=
  (decimation_scenario c3state rfl rfl rfl rfl rfl).2.2

/-- Claim C4: along every reachable state the label log is dense (the
k-th record's frame index is k), and a decimation-hit capture appends
exactly one record whose index is the log length and whose steering value
is the current `steering_ms_out`. -/
theorem label_log_dense (s : CollectorState) (h : Reachable s) :
    frames_ok s.steering_data
    ∧ (∀ now : ℕ, s.collecting = true → s.cam_connected = true →
        (s.frame_count + 1) % s.frame_interval = 0 →
        capture_frame s (some ()) now
          = .ok { s with frame_count := s.frame_count + 1,
                         steering_data := s.steering_data
                           ++ [⟨s.steering_data.length, s.steering_ms_out, now⟩] }
              [Effect.writeImage s.steering_data.length]) := by
  refine ⟨reachable_frames s h, ?_⟩
  intro now hc hcam hm
  simp [capture_frame, hc, hcam, hm]

/-- Claim C4 witness at the initial state. -/
theorem label_log_dense_witness :
    frames_ok (init_state 5 true false).steering_data :=
  (label_log_dense (init_state 5 true false) (Reachable.init 5 true false)).1

theorem one_shot_run_held (M : ℕ) :
    one_shot_run true (List.replicate M true) = (List.replicate M false, true) := by
  induction M with
  | zero => rfl
  | succ n ih => simp [List.replicate_succ, one_shot_run, one_shot_step, ih]

/-- Claim C5: a press held N consecutive ticks from the released state
fires the one-shot exactly once, on the transition tick; while the stored
level stays high no further fire occurs, and only a released observation
re-arms the detector. Both `handle_one_shot_button` and the keyboard
R-key handling implement this step. -/
theorem one_shot_edge_semantics (N : ℕ) (hN : 1 ≤ N) :
    (one_shot_run false (List.replicate N true)).1
      = true :: List.replicate (N - 1) false
    ∧ (∀ M, (one_shot_run true (List.replicate M true)).1 = List.replicate M false)
    ∧ one_shot_step false true = (true, true)
    ∧ one_shot_step true false = (false, false)
    ∧ (∀ (s : CollectorState) (i : ℕ) (cur : Bool), s.joystick_tracked = true →
        (handle_one_shot_button s i cur).1 = (one_shot_step (s.button_states i) cur).1
        ∧ (handle_one_shot_button s i cur).2.button_states i
            = (one_shot_step (s.button_states i) cur).2)
    ∧ (∀ (k : KeyState) (s : CollectorState),
        (get_keyboard_inputs k s).1.r_key_pressed = (one_shot_step s.r_key_pressed k.r).2
        ∧ ((one_shot_step s.r_key_pressed k.r).1 = false →
            (get_keyboard_inputs k s).1.collecting = s.collecting)) := by
  refine ⟨?_, ?_, by simp [one_shot_step], by simp [one_shot_step], ?_, ?_⟩
  · cases N with
    | zero => omega
    | succ n =>
      simp [List.replicate_succ, one_shot_run, one_shot_step, one_shot_run_held n]
  · intro M
    simp [one_shot_run_held M]
  · intro s i cur htr
    cases cur <;> cases hbs : s.button_states i <;>
      simp [handle_one_shot_button, one_shot_step, htr, hbs, Function.update_same]
  · intro k s
    rcases k with ⟨l, r, d, u, sp, rk, o⟩
    cases sp <;> cases rk <;>
      by_cases hp : s.r_key_pressed = false <;>
      by_cases hc : s.collecting = true <;>
        simp [get_keyboard_inputs, one_shot_step, hp, hc]

/-- Claim C5 witness: a three-tick hold fires once, on the first tick. -/
theorem one_shot_edge_semantics_witness :
    (one_shot_run false (List.replicate 3 true)).1 = true :: List.replicate 2 false :=
  (one_shot_edge_semantics 3 (by decide)).1

/-- Claim C7 counterexample: on a tick whose decimation test fires while
the camera read errors, the exception escapes the loop body (`raised`),
so the loop does not continue — contradicting the claim that a capture
failure is non-fatal. -/
theorem capture_error_fatal_cex :
    (tick ⟨keysUp, false, ctrlNeutral, none, 0⟩ c7state).raised = true := by
  rfl

/-- Claim C7 amended: a camera read error on a decimation-hit tick
propagates out of `capture_frame` uncaught (only the increment survives),
terminating the loop; the `finally` cleanup then stops the recording. -/
theorem capture_error_propagates (s : CollectorState) (now : ℕ)
    (hc : s.collecting = true) (hcam : s.cam_connected = true)
    (hm : (s.frame_count + 1) % s.frame_interval = 0) :
    capture_frame s none now
      = .raised { s with frame_count := s.frame_count + 1 }
    ∧ (cleanup { s with frame_count := s.frame_count + 1 }).1.collecting = false := by
  constructor
  · simp [capture_frame, hc, hcam, hm]
  · unfold cleanup
    split
    · exact stop_collecting_collecting _
    · next hcol => exact absurd hc hcol

/-- Claim C7 amended witness at the interval-1 session fixture. -/
theorem capture_error_propagates_witness :
    capture_frame c7state none 0
      = .raised { c7state with frame_count := c7state.frame_count + 1 } :=
  (capture_error_propagates c7state 0 rfl rfl (by decide)).1

/-- Claim C8 counterexample: with the boost set on an earlier tick, a tick
in keyboard mode with SPACE released leaves the boost in force — the
keyboard boost is latched, contradicting the claim that it must be
re-pressed each tick to remain in effect. -/
theorem keyboard_boost_latched_cex :
    keysUp.space = false
    ∧ c8state.throttle_key = 1
    ∧ (tick ⟨keysUp, false, ctrlNeutral, some (), 0⟩ c8state).state.input_value = 0
    ∧ (tick ⟨keysUp, false, ctrlNeutral, some (), 0⟩ c8state).state.throttle_key = 1 := by
  exact ⟨rfl, rfl, rfl, rfl⟩

/-- Claim C8 amended: SPACE sets the boost scalar on the ticks it is held;
on ticks without SPACE the keyboard path never resets it, so a previously
set boost persists (it is latched) until some later handling overwrites
it. -/
theorem keyboard_boost_sticky (k : KeyState) (s : CollectorState) :
    (k.space = true → (get_keyboard_inputs k s).1.throttle_key = 1)
    ∧ (k.space = false → (get_keyboard_inputs k s).1.throttle_key = s.throttle_key) := by
  constructor <;>
    (intro hsp
     rcases k with ⟨l, r, d, u, sp, rk, o⟩
     simp only at hsp
     subst hsp
     cases rk <;>
       by_cases hp : s.r_key_pressed = false <;>
       by_cases hc : s.collecting = true <;>
         simp [get_keyboard_inputs, hp, hc])

/-- Claim C8 amended witness: a SPACE-free keyboard tick keeps the boost. -/
theorem keyboard_boost_sticky_witness :
    (get_keyboard_inputs keysUp c8state).1.throttle_key = c8state.throttle_key :=
  (keyboard_boost_sticky keysUp c8state).2 rfl

/-- Claim C9: every reachable collecting state has the camera connected;
`start_collecting` is a no-op when the camera is absent; and no tick ever
changes the camera-connected flag. -/
theorem collecting_requires_camera (s : CollectorState) (h : Reachable s) :
    (s.collecting = true → s.cam_connected = true)
    ∧ (∀ t : CollectorState, t.cam_connected = false → start_collecting t = (t, []))
    ∧ (∀ (inp : TickInput) (t : CollectorState),
        (tick inp t).state.cam_connected = t.cam_connected) := by
  refine ⟨reachable_caminv s h, ?_, fun inp t => tick_cam_const inp t⟩
  intro t ht
  simp [start_collecting, ht]

/-- Claim C9 witness: a concrete tick leaves the camera flag unchanged. -/
theorem collecting_requires_camera_witness :
    (tick ⟨keysUp, false, ctrlNeutral, some (), 0⟩
        (init_state 5 true false)).state.cam_connected
      = (init_state 5 true false).cam_connected :=
  (collecting_requires_camera (init_state 5 true false)
      (Reachable.init 5 true false)).2.2
    ⟨keysUp, false, ctrlNeutral, some (), 0⟩ (init_state 5 true false)

/-- Claim C10: on a tick with any keyboard key pressed the controller is
never polled — the tick result is independent of every controller reading
and the one-shot button map is left untouched. -/
theorem keyboard_priority (k : KeyState) (cpos : Bool) (c1 c2 : ControllerInput)
    (cap : Option Unit) (now : ℕ) (s : CollectorState) (h : anyKey k = true) :
    tick ⟨k, cpos, c1, cap, now⟩ s = tick ⟨k, cpos, c2, cap, now⟩ s
    ∧ (tick ⟨k, cpos, c1, cap, now⟩ s).state.button_states = s.button_states := by
  constructor
  · simp only [tick, input_handler, h, if_true]
  · unfold tick
    dsimp only
    rw [capture_frame_button_states]
    show (input_handler k cpos c1
        (controller_reconnection_handler cpos s)).1.button_states = s.button_states
    simp [input_handler, h]

/-- Claim C10 witness: with UP held, a tick ignores opposite controller
readings. -/
theorem keyboard_priority_witness :
    tick ⟨keysUp, true, ⟨1, 1, true, (1, 1)⟩, some (), 0⟩ (init_state 5 true true)
      = tick ⟨keysUp, true, ctrlNeutral, some (), 0⟩ (init_state 5 true true) :=
  (keyboard_priority keysUp true ⟨1, 1, true, (1, 1)⟩ ctrlNeutral (some ()) 0
    (init_state 5 true true) rfl).1

end RCCar
